import Mathlib

/-!
Verification development for the gradebook analytics layer.

The Python source (gradebook/models.py, gradebook/utils.py, gradebook/views.py)
is shallowly embedded: Django model tables become lists of records, querysets
become list computations whose join steps duplicate rows exactly as SQL joins
do, float columns become rational numbers, and timestamps become integers.
A queryset that is evaluated without an explicit order_by clause is modelled
as returning its rows in insertion order, the deterministic choice closest to
the behaviour of the production database.
-/

/-- Timestamps are modelled as integers; for the time series API the unit is
one day, so the 24 hour shift used for active users is the integer 1. -/
abbrev Time := Int

/-- Row of the auth_user table, restricted to the columns the gradebook code
reads (models.py line 25, views.py joins on user__is_active). -/
structure DUser where
  id : Nat
  username : String
  is_active : Bool
deriving DecidableEq

/-- Row of the CourseEnrollment table (external collaborator, spec section 6):
the gradebook joins on is_active and course_id and buckets on created. -/
structure Enrollment where
  user_id : Nat
  course_id : Nat
  is_active : Bool
  created : Time
deriving DecidableEq

/-- StudentGradebook row (models.py lines 20 to 40). Float columns grade and
proforma_grade are modelled as rationals, text blobs as strings. -/
structure GradeRecord where
  user_id : Nat
  course_id : Nat
  grade : Rat
  proforma_grade : Rat
  progress_summary : String
  grade_summary : String
  grading_policy : String
  created : Time
  modified : Time
deriving DecidableEq

/-- StudentGradebookHistory row (models.py lines 185 to 196) plus its created
timestamp from TimeStampedModel. -/
structure HistEntry where
  user_id : Nat
  course_id : Nat
  grade : Rat
  proforma_grade : Rat
  progress_summary : String
  grade_summary : String
  grading_policy : String
  created : Time
deriving DecidableEq

/-- StudentProgress row (external progress app): views.py reads user, course
and created. -/
structure ProgressRow where
  user_id : Nat
  course_id : Nat
  created : Time
deriving DecidableEq

/-- CourseModuleCompletion row (external progress app): views.py reads user,
course and created; get_actual_completions is modelled as the full table. -/
structure ModuleCompletionRow where
  user_id : Nat
  course_id : Nat
  created : Time
deriving DecidableEq

/-- StudentModule row (courseware app): views.py reads student, course and
modified. -/
structure StudentModuleRow where
  student_id : Nat
  course_id : Nat
  modified : Time
deriving DecidableEq

/-- The relational store the gradebook code queries. userGroups and userOrgs
are the many to many join tables behind user__groups and
user__organizations. -/
structure DB where
  users : List DUser
  enrollments : List Enrollment
  userGroups : List (Nat × Nat)
  userOrgs : List (Nat × Nat)
  gradebook : List GradeRecord
  history : List HistEntry
  progress : List ProgressRow
  moduleCompletions : List ModuleCompletionRow
  studentModules : List StudentModuleRow
deriving DecidableEq

/-- Truth of the user__is_active join condition for a user id: the users table
is keyed by id, so the first match decides. -/
def userIsActive (db : DB) (uid : Nat) : Bool :=
  ((db.users.find? (fun u => u.id == uid)).map (fun u => u.is_active)).getD false

/-- Username of a user id, used by the values projection of the leaderboard. -/
def usernameOf (db : DB) (uid : Nat) : String :=
  ((db.users.find? (fun u => u.id == uid)).map (fun u => u.username)).getD ""

/-- The active enrollment rows of one user in one course: the rows the SQL
join user__courseenrollment produces for that user. -/
def activeEnrollRows (db : DB) (uid course : Nat) : List Enrollment :=
  db.enrollments.filter (fun e => e.user_id == uid && e.course_id == course && e.is_active)

/-- CourseEnrollment.objects.users_enrolled_in (external collaborator, spec
section 6): the distinct user ids holding an active enrollment in the
course. -/
def users_enrolled_in (db : DB) (course : Nat) : List Nat :=
  ((db.enrollments.filter (fun e => e.course_id == course && e.is_active)).map
    (fun e => e.user_id)).dedup

/-- The base queryset shared by generate_leaderboard (models.py lines 80 to
82), get_user_position (lines 141 to 148) and the grades querysets of
views.py: gradebook rows of the course whose user is active, joined with the
active enrollment rows of that user in that course (one output row per join
witness, as in SQL), minus excluded users. -/
def eligibleRows (db : DB) (course : Nat) (exclude_users : List Nat) : List GradeRecord :=
  (((db.gradebook.filter (fun r => r.course_id == course && userIsActive db r.user_id)).flatMap
    (fun r => (activeEnrollRows db r.user_id course).map (fun _ => r))).filter
    (fun r => !(exclude_users.contains r.user_id)))

/-- The join produced by filter(user__groups__in=group_ids): one output row
per (row, matching group membership) pair. -/
def groupJoinRows (db : DB) (group_ids : List Nat) (rows : List GradeRecord) : List GradeRecord :=
  rows.flatMap (fun r =>
    (db.userGroups.filter (fun p => p.1 == r.user_id && group_ids.contains p.2)).map (fun _ => r))

/-- Comparison realising order_by(-grade, modified): grade descending then
modified ascending. -/
def rankLE (a b : GradeRecord) : Bool :=
  decide (b.grade < a.grade) || (a.grade == b.grade && decide (a.modified ≤ b.modified))

/-- Insertion step of the ranking sort. -/
def insertRanked (r : GradeRecord) : List GradeRecord → List GradeRecord
  | [] => [r]
  | x :: xs => if rankLE r x then r :: x :: xs else x :: insertRanked r xs

/-- Insertion sort by the leaderboard ordering. -/
def sortRanked : List GradeRecord → List GradeRecord
  | [] => []
  | x :: xs => insertRanked x (sortRanked xs)

/-- SQL MAX over a list of grades, 0 when empty (the code only reads it when
the aggregate count is positive). -/
def listMaxD : List Rat → Rat
  | [] => 0
  | x :: xs => xs.foldl (fun a b => if a < b then b else a) x

/-- SQL MIN over a list of grades, 0 when empty. -/
def listMinD : List Rat → Rat
  | [] => 0
  | x :: xs => xs.foldl (fun a b => if b < a then b else a) x

/-- Floor of a rational as an integer, using floor division of the numerator
by the denominator. -/
def ratFloor (q : Rat) : Int :=
  Int.fdiv q.num (q.den : Int)

/-- Rounding to the nearest integer with ties to even, the rounding applied
by the Python format specifiers used in the source. -/
def roundHalfEven (q : Rat) : Int :=
  let f := ratFloor q
  let frac := q - (f : Rat)
  if frac < mkRat 1 2 then f
  else if mkRat 1 2 < frac then f + 1
  else if f % 2 = 0 then f else f + 1

/-- Value of float(format(x, ".3f")) from models.py line 95: x rounded to
three decimal places. -/
def pyRound3 (q : Rat) : Rat :=
  mkRat (roundHalfEven (q * 1000)) 1000

/-- One entry of the values projection of models.py lines 104 to 108. -/
structure LeaderboardRow where
  user__id : Nat
  user__username : String
  grade : Rat
  modified : Time
deriving DecidableEq

/-- The data dictionary assembled by generate_leaderboard; the user specific
entries are present only on the code path that inserts them. -/
structure LeaderboardData where
  course_avg : Rat
  course_max : Rat
  course_min : Rat
  course_count : Nat
  queryset : List LeaderboardRow
  user_position : Option Nat
  user_grade : Option Rat
deriving DecidableEq

/-- Count of enrolled users minus excluded users, models.py line 76. -/
def totalEnrolledCount (db : DB) (course : Nat) (exclude_users : List Nat) : Nat :=
  ((users_enrolled_in db course).filter (fun uid => !(exclude_users.contains uid))).length

/-- StudentGradebook.get_user_position (models.py lines 122 to 161). The
timestamp taken for the user is the created column of the gradebook row of
that user (line 139), with now as the default when the row is absent; the
comparison against other rows is on their modified column (line 155). -/
def get_user_position (db : DB) (now : Time) (course_key user_id : Nat)
    (exclude_users : List Nat) (group_ids : List Nat) : Nat × Rat :=
  let found := db.gradebook.find? (fun r => r.course_id == course_key && r.user_id == user_id)
  let user_grade := ((found.map (fun r => r.grade)).getD 0)
  let user_time_scored := ((found.map (fun r => r.created)).getD now)
  let queryset := eligibleRows db course_key exclude_users
  let queryset :=
    if group_ids.isEmpty then queryset else (groupJoinRows db group_ids queryset).dedup
  let users_above := (queryset.filter (fun r =>
    decide (user_grade < r.grade) ||
    (r.grade == user_grade && decide (r.modified < user_time_scored)))).length
  (users_above + 1, user_grade)

/-- StudentGradebook.generate_leaderboard (models.py lines 42 to 120). The
aggregates are taken on the queryset as it stands at line 84, before the
group filter of line 100; the ranked rows are taken after it. -/
def generate_leaderboard (db : DB) (now : Time) (course_key : Nat)
    (user_id : Option Nat) (group_ids : List Nat) (count : Nat)
    (exclude_users : List Nat) : LeaderboardData :=
  let data0 : LeaderboardData := ⟨0, 0, 0, 0, [], none, none⟩
  let total_user_count := totalEnrolledCount db course_key exclude_users
  if total_user_count = 0 then data0
  else
    let queryset := eligibleRows db course_key exclude_users
    let gradebook_user_count := queryset.length
    if gradebook_user_count = 0 then data0
    else
      let grades := queryset.map (fun r => r.grade)
      let course_avg := grades.sum / (gradebook_user_count : Rat)
      let course_avg2 := course_avg / (total_user_count : Rat) * (gradebook_user_count : Rat)
      let data1 : LeaderboardData :=
        { data0 with
          course_avg := pyRound3 course_avg2
          course_max := listMaxD grades
          course_min := listMinD grades
          course_count := gradebook_user_count }
      let queryset2 :=
        if group_ids.isEmpty then queryset else (groupJoinRows db group_ids queryset).dedup
      let rows := ((sortRanked queryset2).take count).map (fun r =>
        LeaderboardRow.mk r.user_id (usernameOf db r.user_id) r.grade r.modified)
      let data2 : LeaderboardData := { data1 with queryset := rows }
      match user_id with
      | none => data2
      | some uid =>
        let result := get_user_position db now course_key uid exclude_users group_ids
        { data2 with user_position := some result.1, user_grade := some result.2 }

/-- StudentGradebookHistory.save_history (models.py lines 198 to 231). The
queryset of line 203 carries no order_by clause, so under the insertion order
model history_entries[0] is the first matching row ever inserted; the hook
compares the saved instance against that row and appends a copy when any of
the five material fields differs or no row exists. -/
def save_history (db : DB) (now : Time) (inst : GradeRecord) : DB :=
  let history_entries := db.history.filter (fun h =>
    h.user_id == inst.user_id && h.course_id == inst.course_id)
  let latest_history_entry := history_entries.head?
  let create_history_entry :=
    match latest_history_entry with
    | some e =>
      !(e.grade == inst.grade) ||
      !(e.proforma_grade == inst.proforma_grade) ||
      !(e.progress_summary == inst.progress_summary) ||
      !(e.grade_summary == inst.grade_summary) ||
      !(e.grading_policy == inst.grading_policy)
    | none => true
  if create_history_entry then
    { db with history := db.history ++
        [⟨inst.user_id, inst.course_id, inst.grade, inst.proforma_grade,
          inst.progress_summary, inst.grade_summary, inst.grading_policy, now⟩] }
  else db

/-- The five values the grading engine hands to the upsert of utils.py. -/
structure GradePayload where
  grade : Rat
  proforma_grade : Rat
  progress_summary : String
  grade_summary : String
  grading_policy : String
deriving DecidableEq

/-- generate_user_gradebook (utils.py lines 24 to 59), starting at the
get_or_create call of line 41: the grade computation above it is the external
grading engine. A create and an update both issue a save, which fires the
post_save hook save_history; when the stored grade equals the incoming grade
nothing is written and no hook fires. -/
def generate_user_gradebook (db : DB) (now : Time) (user_id course_id : Nat)
    (p : GradePayload) : DB × GradeRecord :=
  match db.gradebook.find? (fun r => r.user_id == user_id && r.course_id == course_id) with
  | none =>
    let entry : GradeRecord :=
      ⟨user_id, course_id, p.grade, p.proforma_grade, p.progress_summary,
        p.grade_summary, p.grading_policy, now, now⟩
    let db1 := { db with gradebook := db.gradebook ++ [entry] }
    (save_history db1 now entry, entry)
  | some entry =>
    if !(entry.grade == p.grade) then
      let entry2 : GradeRecord :=
        { entry with
          grade := p.grade
          proforma_grade := p.proforma_grade
          progress_summary := p.progress_summary
          grade_summary := p.grade_summary
          grading_policy := p.grading_policy
          modified := now }
      let db1 := { db with gradebook := db.gradebook.map (fun r =>
        if r.user_id == user_id && r.course_id == course_id then entry2 else r) }
      (save_history db1 now entry2, entry2)
    else (db, entry)

/-- The queryset built by get_num_users_completed (models.py lines 163 to
182): the base filter with the proforma window, the exclusion, then the
optional organization and group joins, each join duplicating rows per
membership witness. -/
def completedQueryset (db : DB) (course_key : Nat) (exclude_users : List Nat)
    (org_ids group_ids : List Nat) (grade_complete_match_range : Rat) : List GradeRecord :=
  let queryset :=
    (((db.gradebook.filter (fun r =>
        r.course_id == course_key && userIsActive db r.user_id &&
        decide (r.proforma_grade ≤ r.grade + grade_complete_match_range) &&
        decide (0 < r.proforma_grade))).flatMap
      (fun r => (activeEnrollRows db r.user_id course_key).map (fun _ => r))).filter
      (fun r => !(exclude_users.contains r.user_id)))
  let queryset :=
    if org_ids.isEmpty then queryset
    else queryset.flatMap (fun r =>
      (db.userOrgs.filter (fun p => p.1 == r.user_id && org_ids.contains p.2)).map (fun _ => r))
  if group_ids.isEmpty then queryset
  else queryset.flatMap (fun r =>
    (db.userGroups.filter (fun p => p.1 == r.user_id && group_ids.contains p.2)).map (fun _ => r))

/-- StudentGradebook.get_num_users_completed (models.py lines 163 to 182):
the distinct count of the joined queryset. The tolerance parameter models the
GRADEBOOK_GRADE_COMPLETE_PROFORMA_MATCH_RANGE setting, whose default in the
source is 0.01. -/
def get_num_users_completed (db : DB) (course_key : Nat) (exclude_users : List Nat)
    (org_ids group_ids : List Nat) (grade_complete_match_range : Rat) : Nat :=
  (completedQueryset db course_key exclude_users org_ids group_ids
    grade_complete_match_range).dedup.length

/-- Error kinds surfaced by the time series endpoint: the two missing or
invalid parameter responses issued by views.py directly, and the
ValidationError of spec section 7 for a malformed time range. -/
inductive TSError
  | missingDates
  | badInterval
  | validationError
deriving DecidableEq

/-- Bucket width in days of an interval name; views.py accepts days, weeks
and months. Modelled from the spec: buckets are fixed width, so a month is
taken as thirty days. -/
def intervalWidth : String → Nat
  | "weeks" => 7
  | "months" => 30
  | _ => 1

/-- Number of fixed width buckets covering the half open range from start to
finish, left aligned to start. -/
def numBuckets (start_dt end_dt : Time) (w : Nat) : Nat :=
  ((end_dt - start_dt).toNat + (w - 1)) / w

/-- Left endpoint of bucket i. -/
def bucketStart (start_dt : Time) (w : Nat) (i : Nat) : Time :=
  start_dt + ((i * w : Nat) : Int)

/-- Membership of a timestamp in bucket i. -/
def inBucket (start_dt : Time) (w : Nat) (i : Nat) (t : Time) : Bool :=
  decide (bucketStart start_dt w i ≤ t) && decide (t < bucketStart start_dt w i + (w : Int))

/-- The bucketed aggregation of one series: one pair per bucket, counting
the rows whose date field falls in it. -/
def tsBucketSeries {α : Type} (rows : List α) (stamp : α → Time)
    (agg : List α → Nat) (start_dt : Time) (w : Nat) (n : Nat) : List (Time × Nat) :=
  (List.range n).map (fun i =>
    (bucketStart start_dt w i,
      agg (rows.filter (fun r => inBucket start_dt w i (stamp r)))))

/-- Modelled from the spec: gradebook.api_utils.get_time_series_data is not
among the provided source files. Per spec sections 4.5 and 7 it partitions
the half open range from start to finish into fixed width buckets left
aligned to start, aggregates the rows whose date field falls in each bucket,
and rejects a malformed time range whose end precedes its start with a
ValidationError before any query executes. -/
def get_time_series_data {α : Type} (rows : List α) (stamp : α → Time)
    (agg : List α → Nat) (start_dt end_dt : Time) (w : Nat) :
    Except TSError (List (Time × Nat)) :=
  if end_dt < start_dt then Except.error TSError.validationError
  else Except.ok (tsBucketSeries rows stamp agg start_dt w (numBuckets start_dt end_dt w))

/-- The organization filter step of views.py lines 205 to 211 as applied to a
queryset keyed by a user id projection: a plain join, no distinct. -/
def orgFilterBy {α : Type} (db : DB) (uidOf : α → Nat) (org : Option Nat)
    (rows : List α) : List α :=
  match org with
  | none => rows
  | some o => rows.flatMap (fun r =>
    (db.userOrgs.filter (fun p => p.1 == uidOf r && p.2 == o)).map (fun _ => r))

/-- The group filter step of views.py lines 213 to 219: a join followed by
distinct. -/
def groupFilterBy {α : Type} [DecidableEq α] (db : DB) (uidOf : α → Nat)
    (group_ids : List Nat) (rows : List α) : List α :=
  match group_ids with
  | [] => rows
  | _ => (rows.flatMap (fun r =>
      (db.userGroups.filter (fun p => p.1 == uidOf r && group_ids.contains p.2)).map
        (fun _ => r))).dedup

/-- enrolled_qs of views.py lines 187 to 188 with the organization and group
filters applied. -/
def ts_enrolled_qs (db : DB) (course_key : Nat) (exclude_users : List Nat)
    (org : Option Nat) (group_ids : List Nat) : List Enrollment :=
  groupFilterBy db (fun e => e.user_id) group_ids
    (orgFilterBy db (fun e => e.user_id) org
      ((db.enrollments.filter (fun e =>
          e.course_id == course_key && userIsActive db e.user_id && e.is_active)).filter
        (fun e => !(exclude_users.contains e.user_id))))

/-- users_started_qs of views.py lines 189 to 192 with the organization and
group filters applied. -/
def ts_started_qs (db : DB) (course_key : Nat) (exclude_users : List Nat)
    (org : Option Nat) (group_ids : List Nat) : List ProgressRow :=
  groupFilterBy db (fun p => p.user_id) group_ids
    (orgFilterBy db (fun p => p.user_id) org
      (((db.progress.filter (fun p =>
            p.course_id == course_key && userIsActive db p.user_id)).flatMap
          (fun p => (activeEnrollRows db p.user_id course_key).map (fun _ => p))).filter
        (fun p => !(exclude_users.contains p.user_id))))

/-- grades_complete_qs of views.py lines 181 to 186 with the organization and
group filters applied. -/
def ts_completed_qs (db : DB) (course_key : Nat) (exclude_users : List Nat)
    (org : Option Nat) (group_ids : List Nat) (grade_complete_match_range : Rat) :
    List GradeRecord :=
  groupFilterBy db (fun r => r.user_id) group_ids
    (orgFilterBy db (fun r => r.user_id) org
      ((eligibleRows db course_key exclude_users).filter (fun r =>
        decide (r.proforma_grade ≤ r.grade + grade_complete_match_range) &&
        decide (0 < r.proforma_grade))))

/-- modules_completed_qs of views.py lines 193 to 198 with the organization
and group filters applied. -/
def ts_modules_qs (db : DB) (course_key : Nat) (exclude_users : List Nat)
    (org : Option Nat) (group_ids : List Nat) : List ModuleCompletionRow :=
  groupFilterBy db (fun m => m.user_id) group_ids
    (orgFilterBy db (fun m => m.user_id) org
      (((db.moduleCompletions.filter (fun m =>
            m.course_id == course_key && userIsActive db m.user_id)).flatMap
          (fun m => (activeEnrollRows db m.user_id course_key).map (fun _ => m))).filter
        (fun m => !(exclude_users.contains m.user_id))))

/-- active_users_qs of views.py lines 199 to 203 with the organization and
group filters applied. -/
def ts_active_qs (db : DB) (course_key : Nat) (exclude_users : List Nat)
    (org : Option Nat) (group_ids : List Nat) : List StudentModuleRow :=
  groupFilterBy db (fun m => m.student_id) group_ids
    (orgFilterBy db (fun m => m.student_id) org
      (((db.studentModules.filter (fun m =>
            m.course_id == course_key && userIsActive db m.student_id)).flatMap
          (fun m => (activeEnrollRows db m.student_id course_key).map (fun _ => m))).filter
        (fun m => !(exclude_users.contains m.student_id))))

/-- Seed of the running enrolled total, views.py line 221: enrollment rows
created strictly before the start of the range. -/
def ts_total_enrolled_seed (db : DB) (course_key : Nat) (exclude_users : List Nat)
    (org : Option Nat) (group_ids : List Nat) (start_dt : Time) : Nat :=
  ((ts_enrolled_qs db course_key exclude_users org group_ids).filter
    (fun e => decide (e.created < start_dt))).length

/-- Seed of the running started total, views.py lines 222 to 223: distinct
users with a progress row created strictly before the start of the range. -/
def ts_total_started_seed (db : DB) (course_key : Nat) (exclude_users : List Nat)
    (org : Option Nat) (group_ids : List Nat) (start_dt : Time) : Nat :=
  ((((ts_started_qs db course_key exclude_users org group_ids).filter
      (fun p => decide (p.created < start_dt))).map (fun p => p.user_id)).dedup).length

/-- The derivation loop of views.py lines 254 to 258: walk the enrolled and
started series in step, emit the difference of the incremented running
totals under the started bucket timestamp, then increment the totals. -/
def notStartedLoop : Nat → Nat → List (Time × Nat) → List (Time × Nat) → List (Time × Int)
  | _, _, [], _ => []
  | _, _, _ :: _, [] => []
  | total_enrolled, total_started, e :: es, s :: ss =>
    (s.1, ((total_enrolled : Int) + (e.2 : Int)) - ((total_started : Int) + (s.2 : Int))) ::
      notStartedLoop (total_enrolled + e.2) (total_started + s.2) es ss

/-- The response dictionary of views.py lines 260 to 267. -/
structure TSData where
  users_not_started : List (Time × Int)
  users_started : List (Time × Nat)
  users_completed : List (Time × Nat)
  modules_completed : List (Time × Nat)
  users_enrolled : List (Time × Nat)
  active_users : List (Time × Nat)
deriving DecidableEq

/-- Query parameters of the time series request; parse_datetime is modelled
as already applied, so the dates arrive as optional timestamps. -/
structure TSRequest where
  start_date : Option Time
  end_date : Option Time
  interval : String
  organization : Option Nat
  groups : List Nat
deriving DecidableEq

/-- The query issuing part of CoursesTimeSeriesMetrics.get (views.py lines
178 to 269), entered once both parameter checks have passed. The second
component of the result counts the queries executed against the store: the
two running total seeds of lines 221 to 222 execute first, then each series
call executes one aggregation round. -/
def tsSeriesPart (db : DB) (req : TSRequest) (course_key : Nat)
    (exclude_users : List Nat) (grade_complete_match_range : Rat)
    (start_dt end_dt : Time) : Except TSError TSData × Nat :=
  let w := intervalWidth req.interval
  let enrolled_qs := ts_enrolled_qs db course_key exclude_users req.organization req.groups
  let started_qs := ts_started_qs db course_key exclude_users req.organization req.groups
  let completed_qs := ts_completed_qs db course_key exclude_users req.organization req.groups
    grade_complete_match_range
  let modules_qs := ts_modules_qs db course_key exclude_users req.organization req.groups
  let active_qs := ts_active_qs db course_key exclude_users req.organization req.groups
  let total_enrolled := ts_total_enrolled_seed db course_key exclude_users
    req.organization req.groups start_dt
  let total_started := ts_total_started_seed db course_key exclude_users
    req.organization req.groups start_dt
  match get_time_series_data enrolled_qs (fun e => e.created)
      (fun l => l.length) start_dt end_dt w with
  | Except.error err => (Except.error err, 2)
  | Except.ok enrolled_series =>
  match get_time_series_data started_qs (fun p => p.created)
      (fun l => ((l.map (fun p => p.user_id)).dedup).length) start_dt end_dt w with
  | Except.error err => (Except.error err, 3)
  | Except.ok started_series =>
  match get_time_series_data completed_qs (fun r => r.modified)
      (fun l => l.dedup.length) start_dt end_dt w with
  | Except.error err => (Except.error err, 4)
  | Except.ok completed_series =>
  match get_time_series_data modules_qs (fun m => m.created)
      (fun l => l.dedup.length) start_dt end_dt w with
  | Except.error err => (Except.error err, 5)
  | Except.ok modules_series =>
  match get_time_series_data active_qs (fun m => m.modified)
      (fun l => ((l.map (fun m => m.student_id)).dedup).length)
      (start_dt - 1) (end_dt - 1) w with
  | Except.error err => (Except.error err, 6)
  | Except.ok active_series =>
    let not_started_series := notStartedLoop total_enrolled total_started
      enrolled_series started_series
    (Except.ok ⟨not_started_series, started_series, completed_series,
      modules_series, enrolled_series, active_series⟩, 7)

/-- CoursesTimeSeriesMetrics.get (views.py lines 160 to 269): the missing
date and unsupported interval checks of lines 170 to 175 run before any
query; once both pass, the series part executes. -/
def coursesTimeSeriesMetricsGet (db : DB) (req : TSRequest) (course_key : Nat)
    (exclude_users : List Nat) (grade_complete_match_range : Rat) :
    Except TSError TSData × Nat :=
  match req.start_date, req.end_date with
  | none, _ => (Except.error TSError.missingDates, 0)
  | some _, none => (Except.error TSError.missingDates, 0)
  | some start_dt, some end_dt =>
    if !(["days", "weeks", "months"].contains req.interval) then
      (Except.error TSError.badInterval, 0)
    else
      tsSeriesPart db req course_key exclude_users grade_complete_match_range
        start_dt end_dt

/-- A score value as it flows through update_grade_summaries: either a number
(sums of floats, or the integer default 0) or a string fragment cut out of
the detail label. -/
inductive SVal
  | num (q : Rat)
  | str (s : String)
deriving DecidableEq

/-- One raw score of totaled_scores: the code reads earned and possible. -/
structure RawScore where
  earned : Rat
  possible : Rat
deriving DecidableEq

/-- The fields of a section of the grade summary breakdown that the score
reconstruction block reads: the free text detail label, the category, and
the optional preexisting score fields. -/
structure GSection where
  category : String
  detail : String
  score_earned : Option SVal
  score_possible : Option SVal
deriving DecidableEq

/-- Sum of the earned components, the accumulation of utils.py line 203. -/
def sumEarned (scores : List RawScore) : Rat :=
  scores.foldl (fun acc sc => acc + sc.earned) 0

/-- Sum of the possible components, the accumulation of utils.py line 204. -/
def sumPossible (scores : List RawScore) : Rat :=
  scores.foldl (fun acc sc => acc + sc.possible) 0

/-- The earned fragment parsed out of a detail label by utils.py lines 208
and 209: the last space separated token, the text after its first opening
parenthesis, before the first slash of that text. Where Python indexing
would raise IndexError the model yields the empty string; the claims only
exercise labels where the index exists. -/
def earnedFromDetail (detail : String) : String :=
  let score_from_label := (detail.splitOn " ").getLastD ""
  (((score_from_label.splitOn "(").getD 1 "").splitOn "/").getD 0 ""

/-- The possible fragment parsed out of a detail label by utils.py line 210:
inside the last space separated token, the text before the first closing
parenthesis, after the first slash of that text. -/
def possibleFromDetail (detail : String) : String :=
  let score_from_label := (detail.splitOn " ").getLastD ""
  (((score_from_label.splitOn ")").getD 0 "").splitOn "/").getD 1 ""

/-- The three way dispatch of utils.py lines 194 to 213 (identical in
views.py lines 486 to 505): an equals sign in the detail label sums the raw
scores of the category of the section; otherwise a hyphen parses the
trailing parenthesised fragment of the label; otherwise the preexisting
section fields are kept, defaulting to 0. -/
def update_section_scores (totaled_scores : List (String × List RawScore))
    (sec : GSection) : SVal × SVal :=
  if sec.detail.contains '=' then
    let scores := ((totaled_scores.find? (fun p => p.1 == sec.category)).map
      (fun p => p.2)).getD []
    (SVal.num (sumEarned scores), SVal.num (sumPossible scores))
  else if sec.detail.contains '-' then
    (SVal.str (earnedFromDetail sec.detail), SVal.str (possibleFromDetail sec.detail))
  else
    (sec.score_earned.getD (SVal.num 0), sec.score_possible.getD (SVal.num 0))

/-- Conversion applied by float() to a decimal string: optional surrounding
whitespace, optional sign, digits with an optional point. Exponent notation
and the infinity and nan literals of Python are not modelled; no claim
exercises them. -/
def pyParseFloat (s : String) : Option Rat :=
  let t := s.trim
  let sgn : Rat := if t.startsWith "-" then -1 else 1
  let t2 := if t.startsWith "-" || t.startsWith "+" then t.drop 1 else t
  match t2.splitOn "." with
  | [a] =>
    if !(a.isEmpty) && a.all Char.isDigit then
      some (sgn * ((a.toNat?.getD 0 : Nat) : Rat))
    else none
  | [a, b] =>
    if !((a ++ b).isEmpty) && a.all Char.isDigit && b.all Char.isDigit then
      some (sgn * mkRat (((a ++ b).toNat?.getD 0 : Nat) : Int) (10 ^ b.length))
    else none
  | _ => none

/-- Value of float(v) for a score value, where a numeric value converts to
itself and a string is parsed; none models the ValueError branch. -/
def pyFloat : SVal → Option Rat
  | SVal.num q => some q
  | SVal.str s => pyParseFloat s

/-- Rendering of a score value under the plain format braces of utils.py
line 218. A string renders as itself; the numeric case renders the numerator
over the denominator and is an approximation of the Python float repr, used
by no claim because a numeric score always converts in float(). -/
def pyStr : SVal → String
  | SVal.num q => if q.den = 1 then toString q.num else toString q.num ++ "/" ++ toString q.den
  | SVal.str s => s

/-- Fixed point rendering with two decimal places, the format of utils.py
line 216: the value rounded to two decimals with ties to even, printed with
exactly two digits after the point. Negative values do not occur in score
data, so the sign of a negative zero is not modelled. -/
def format2 (q : Rat) : String :=
  let n := roundHalfEven (q * 100)
  let a := n.natAbs
  (if n < 0 then "-" else "") ++ toString (a / 100) ++ "." ++
    (if a % 100 < 10 then "0" else "") ++ toString (a % 100)

/-- The grade_description assembly of utils.py lines 215 to 218: when both
values convert in float() they are printed with two decimal places, else the
raw values are interpolated verbatim. -/
def grade_description (score_earned score_possible : SVal) : String :=
  match pyFloat score_earned, pyFloat score_possible with
  | some a, some b => "(" ++ format2 a ++ "/" ++ format2 b ++ ")"
  | _, _ => "(" ++ pyStr score_earned ++ "/" ++ pyStr score_possible ++ ")"

/-- The latest history entry by creation time, the reading of latest that the
spec prescribes for the ledger comparison. -/
def latestByCreated (l : List HistEntry) : Option HistEntry :=
  l.foldl (fun acc h =>
    match acc with
    | none => some h
    | some a => if a.created < h.created then some h else some a) none

/-- Number of eligible rows ranked strictly above a grade and timestamp pair
under the leaderboard ordering of models.py line 109: higher grade, or equal
grade with an earlier modified timestamp. -/
def leaderboardRowsAbove (db : DB) (course : Nat) (exclude_users : List Nat)
    (g : Rat) (m : Time) : Nat :=
  ((eligibleRows db course exclude_users).filter (fun r =>
    decide (g < r.grade) || (r.grade == g && decide (r.modified < m)))).length

/-- Record level eligibility: the course matches, the user is active, at
least one active enrollment in the course exists, and the user is not
excluded. -/
def isEligibleRecord (db : DB) (course : Nat) (exclude_users : List Nat)
    (r : GradeRecord) : Bool :=
  r.course_id == course && userIsActive db r.user_id &&
    !((activeEnrollRows db r.user_id course).isEmpty) &&
    !(exclude_users.contains r.user_id)

/-- The eligible gradebook records of a course, one per record with no join
duplication. -/
def eligibleRecords (db : DB) (course : Nat) (exclude_users : List Nat) : List GradeRecord :=
  db.gradebook.filter (isEligibleRecord db course exclude_users)

/-- Record level reading of the completion filter: eligibility, a positive
proforma grade within the tolerance of the actual grade, and membership in
some listed organization and group when those filters are given. -/
def qualifiesCompleted (db : DB) (course : Nat) (exclude_users : List Nat)
    (org_ids group_ids : List Nat) (grade_complete_match_range : Rat)
    (r : GradeRecord) : Bool :=
  isEligibleRecord db course exclude_users r &&
    decide (0 < r.proforma_grade) &&
    decide (r.proforma_grade ≤ r.grade + grade_complete_match_range) &&
    (org_ids.isEmpty ||
      db.userOrgs.any (fun p => p.1 == r.user_id && org_ids.contains p.2)) &&
    (group_ids.isEmpty ||
      db.userGroups.any (fun p => p.1 == r.user_id && group_ids.contains p.2))

/-- Uniqueness of active enrollments: no two distinct enrollment rows are
active for the same user and course, the uniqueness the enrollment store
enforces. -/
def enrollUnique (db : DB) : Prop :=
  db.enrollments.Pairwise (fun a b =>
    ¬(a.user_id = b.user_id ∧ a.course_id = b.course_id ∧
      a.is_active = true ∧ b.is_active = true))

/-- Uniqueness of gradebook rows per user and course, the unique_together
constraint of models.py line 40. -/
def gradebookUnique (db : DB) : Prop :=
  db.gradebook.Pairwise (fun a b => ¬(a.user_id = b.user_id ∧ a.course_id = b.course_id))

/-- Store with two users whose gradebook rows tie at grade 4/5: user 1
scored first (created 0) but was updated later (modified 10), user 2 has
created and modified 5. -/
def dbC1 : DB :=
  { users := [⟨1, "a", true⟩, ⟨2, "b", true⟩]
    enrollments := [⟨1, 10, true, 0⟩, ⟨2, 10, true, 0⟩]
    userGroups := []
    userOrgs := []
    gradebook :=
      [⟨1, 10, mkRat 4 5, 0, "", "", "", 0, 10⟩,
       ⟨2, 10, mkRat 4 5, 0, "", "", "", 5, 5⟩]
    history := []
    progress := []
    moduleCompletions := []
    studentModules := [] }

/-- First history entry of the C2 store, grade 1/2, created at time 0. -/
def e1C2 : HistEntry := ⟨1, 10, mkRat 1 2, 0, "", "", "", 0⟩

/-- Second and latest history entry of the C2 store, grade 7/10, created at
time 1. -/
def e2C2 : HistEntry := ⟨1, 10, mkRat 7 10, 0, "", "", "", 1⟩

/-- Store whose history for user 1 in course 10 holds the two entries in
insertion order. -/
def dbC2 : DB :=
  { users := [⟨1, "a", true⟩]
    enrollments := [⟨1, 10, true, 0⟩]
    userGroups := []
    userOrgs := []
    gradebook := []
    history := [e1C2, e2C2]
    progress := []
    moduleCompletions := []
    studentModules := [] }

/-- A saved instance whose five material fields all equal the latest history
entry e2C2. -/
def instC2 : GradeRecord := ⟨1, 10, mkRat 7 10, 0, "", "", "", 2, 2⟩

/-- Store for the group filter aggregates: two eligible users, of whom only
user 1 belongs to group 5. -/
def dbC3 : DB :=
  { users := [⟨1, "a", true⟩, ⟨2, "b", true⟩]
    enrollments := [⟨1, 10, true, 0⟩, ⟨2, 10, true, 0⟩]
    userGroups := [(1, 5)]
    userOrgs := []
    gradebook :=
      [⟨1, 10, mkRat 1 1, 0, "", "", "", 0, 0⟩,
       ⟨2, 10, 0, 0, "", "", "", 0, 0⟩]
    history := []
    progress := []
    moduleCompletions := []
    studentModules := [] }

/-- Store with five enrolled users of whom three carry recorded grades 9/10,
4/5 and 4/5, the averaging example of the spec. -/
def dbC4 : DB :=
  { users :=
      [⟨1, "a", true⟩, ⟨2, "b", true⟩, ⟨3, "c", true⟩, ⟨4, "d", true⟩, ⟨5, "e", true⟩]
    enrollments :=
      [⟨1, 20, true, 0⟩, ⟨2, 20, true, 0⟩, ⟨3, 20, true, 0⟩, ⟨4, 20, true, 0⟩,
       ⟨5, 20, true, 0⟩]
    userGroups := []
    userOrgs := []
    gradebook :=
      [⟨1, 20, mkRat 9 10, 0, "", "", "", 0, 0⟩,
       ⟨2, 20, mkRat 4 5, 0, "", "", "", 0, 0⟩,
       ⟨3, 20, mkRat 4 5, 0, "", "", "", 0, 0⟩]
    history := []
    progress := []
    moduleCompletions := []
    studentModules := [] }

/-- The stored record of the C5 store: grade 3/4 with proforma grade 1/2. -/
def rC5 : GradeRecord := ⟨1, 30, mkRat 3 4, mkRat 1 2, "ps", "gs", "gp", 0, 0⟩

/-- Store holding exactly the record rC5. -/
def dbC5 : DB :=
  { users := [⟨1, "a", true⟩]
    enrollments := [⟨1, 30, true, 0⟩]
    userGroups := []
    userOrgs := []
    gradebook := [rC5]
    history := [⟨1, 30, mkRat 3 4, mkRat 1 2, "ps", "gs", "gp", 0⟩]
    progress := []
    moduleCompletions := []
    studentModules := [] }

/-- An incoming payload with the same grade as rC5 but different proforma
grade and different serialized blobs. -/
def pC5 : GradePayload := ⟨mkRat 3 4, mkRat 9 10, "ps2", "gs2", "gp2"⟩

/-- The empty store. -/
def emptyDB : DB := ⟨[], [], [], [], [], [], [], [], []⟩

/-- A time series request whose end date 3 precedes its start date 5, with a
valid interval. -/
def reqC6 : TSRequest := ⟨some 5, some 3, "days", none, []⟩

/-- A time series request with an unsupported interval unit. -/
def reqC6bad : TSRequest := ⟨some 0, some 2, "hours", none, []⟩

/-- A two day time series request starting at time 0. -/
def reqC7 : TSRequest := ⟨some 0, some 2, "days", none, []⟩

/-- Store for the C7 witness: one enrollment created before the start of the
range and no progress rows. -/
def dbC7 : DB :=
  { users := [⟨1, "a", true⟩]
    enrollments := [⟨1, 40, true, -5⟩]
    userGroups := []
    userOrgs := []
    gradebook := []
    history := []
    progress := []
    moduleCompletions := []
    studentModules := [] }

/-- The totaled scores of the C8 aggregate example: category Exam 2 holds one
raw score of 3 out of 10. -/
def totaledC8 : List (String × List RawScore) := [("Exam 2", [⟨3, 10⟩])]

/-- A section whose detail label carries an equals sign, the aggregate
category case. -/
def secC8A : GSection := ⟨"Exam 2", "Exam 2 = 0%", none, none⟩

/-- A section whose detail label carries a hyphen and a non numeric
parenthesised fragment. -/
def secC8B : GSection := ⟨"Homework", "HW14 Unreleased - 0% (?/?)", none, none⟩

/-- Store for the completion examples: three users at grade 3/4 with
proforma grades 0.755, 0 and 0.8. -/
def dbC9 : DB :=
  { users := [⟨1, "a", true⟩, ⟨2, "b", true⟩, ⟨3, "c", true⟩]
    enrollments := [⟨1, 50, true, 0⟩, ⟨2, 50, true, 0⟩, ⟨3, 50, true, 0⟩]
    userGroups := []
    userOrgs := []
    gradebook :=
      [⟨1, 50, mkRat 3 4, mkRat 151 200, "", "", "", 0, 0⟩,
       ⟨2, 50, mkRat 3 4, 0, "", "", "", 0, 0⟩,
       ⟨3, 50, mkRat 3 4, mkRat 4 5, "", "", "", 0, 0⟩]
    history := []
    progress := []
    moduleCompletions := []
    studentModules := [] }

/-- Store with one completed user joined through one organization, one group
and one enrollment row. -/
def dbC10a : DB :=
  { users := [⟨1, "a", true⟩]
    enrollments := [⟨1, 60, true, 0⟩]
    userGroups := [(1, 8)]
    userOrgs := [(1, 7)]
    gradebook := [⟨1, 60, mkRat 3 4, mkRat 3 4, "", "", "", 0, 0⟩]
    history := []
    progress := []
    moduleCompletions := []
    studentModules := [] }

/-- The same store with the organization, group and enrollment rows
duplicated, so every join produces several witnesses. -/
def dbC10b : DB :=
  { users := [⟨1, "a", true⟩]
    enrollments := [⟨1, 60, true, 0⟩, ⟨1, 60, true, 0⟩]
    userGroups := [(1, 8), (1, 8)]
    userOrgs := [(1, 7), (1, 7)]
    gradebook := [⟨1, 60, mkRat 3 4, mkRat 3 4, "", "", "", 0, 0⟩]
    history := []
    progress := []
    moduleCompletions := []
    studentModules := [] }

/-- Claim C1 (code bug evaluation): in dbC1 the position computed for user 1
is 1, yet exactly one eligible row is ranked strictly above user 1 under the
leaderboard ordering on grade and modified, so position minus 1 differs from
the number of rows ranked above. The cause is models.py line 139, which takes
the created column of the user against the modified column of the others. -/
theorem c1_position_code_eval :
    (get_user_position dbC1 0 10 1 [] []).1 = 1 ∧
    leaderboardRowsAbove dbC1 10 [] (mkRat 4 5) 10 = 1 ∧
    (get_user_position dbC1 0 10 1 [] []).1 - 1 ≠
      leaderboardRowsAbove dbC1 10 [] (mkRat 4 5) 10 := by
  with_unfolding_all decide

/-- Claim C2 (code bug evaluation): in dbC2 the saved instance equals the
latest history entry by creation time on all five material fields, yet
save_history appends a new entry, because the unordered queryset of
models.py line 203 yields the oldest entry at index 0. -/
theorem c2_history_code_eval :
    latestByCreated (dbC2.history.filter (fun h =>
      h.user_id == 1 && h.course_id == 10)) = some e2C2 ∧
    e2C2.grade = instC2.grade ∧
    e2C2.proforma_grade = instC2.proforma_grade ∧
    e2C2.progress_summary = instC2.progress_summary ∧
    e2C2.grade_summary = instC2.grade_summary ∧
    e2C2.grading_policy = instC2.grading_policy ∧
    (save_history dbC2 5 instC2).history.length = dbC2.history.length + 1 := by
  with_unfolding_all decide

/-- Claim C5: an upsert of an existing record whose incoming grade equals the
stored grade returns the store completely unchanged together with the stored
record: no field is overwritten, modified does not advance, no save is
issued, and since no save fires the history hook, no history entry is
appended, regardless of the other incoming fields. -/
theorem c5_upsert_unchanged (db : DB) (now : Time) (uid cid : Nat) (p : GradePayload)
    (r : GradeRecord)
    (hfind : db.gradebook.find? (fun x => x.user_id == uid && x.course_id == cid) = some r)
    (hgrade : r.grade = p.grade) :
    generate_user_gradebook db now uid cid p = (db, r) := by
  unfold generate_user_gradebook
  rw [hfind]
  simp [hgrade]

/-- Witness for claim C5 at the concrete store dbC5: the stored record rC5
has the same grade as the payload pC5 but a different proforma grade, and the
upsert leaves the store untouched. -/
theorem c5_upsert_unchanged_witness :
    dbC5.gradebook.find? (fun x => x.user_id == 1 && x.course_id == 30) = some rC5 ∧
    rC5.grade = pC5.grade ∧
    rC5.proforma_grade ≠ pC5.proforma_grade ∧
    generate_user_gradebook dbC5 99 1 30 pC5 = (dbC5, rC5) :=
  ⟨by with_unfolding_all rfl, by with_unfolding_all rfl, by with_unfolding_all decide,
    c5_upsert_unchanged dbC5 99 1 30 pC5 rC5 (by with_unfolding_all rfl)
      (by with_unfolding_all rfl)⟩

/-- Claim C6 (counterexample): a request whose end date 3 precedes its start
date 5 with a valid interval is rejected with a ValidationError, but only
after the two running total seed queries of views.py lines 221 to 222 have
executed, so the rejection does not precede every query. -/
theorem c6_counterexample :
    coursesTimeSeriesMetricsGet emptyDB reqC6 10 [] (mkRat 1 100) =
      (Except.error TSError.validationError, 2) := by
  with_unfolding_all rfl

/-- Claim C6 (amended): when both dates are present, an unsupported interval
unit is rejected before any query executes, while an end date preceding the
start date is rejected with a ValidationError only after the two running
total seed queries have executed. -/
theorem c6_validation_order (db : DB) (req : TSRequest) (course_key : Nat)
    (exclude_users : List Nat) (eps : Rat) (sdt edt : Time)
    (hs : req.start_date = some sdt) (he : req.end_date = some edt) :
    ((["days", "weeks", "months"].contains req.interval) = false →
      coursesTimeSeriesMetricsGet db req course_key exclude_users eps =
        (Except.error TSError.badInterval, 0)) ∧
    ((["days", "weeks", "months"].contains req.interval) = true → edt < sdt →
      coursesTimeSeriesMetricsGet db req course_key exclude_users eps =
        (Except.error TSError.validationError, 2)) := by
  unfold coursesTimeSeriesMetricsGet
  rw [hs, he]
  constructor
  · intro hint
    rw [hint]
    rfl
  · intro hint hlt
    rw [hint]
    show (if (!true) = true then (Except.error TSError.badInterval, 0)
      else tsSeriesPart db req course_key exclude_users eps sdt edt) =
      (Except.error TSError.validationError, 2)
    rw [if_neg (by simp)]
    have h1 : get_time_series_data
        (ts_enrolled_qs db course_key exclude_users req.organization req.groups)
        (fun e => e.created) (fun l => l.length) sdt edt (intervalWidth req.interval) =
        Except.error TSError.validationError := by
      unfold get_time_series_data
      exact if_pos hlt
    simp only [tsSeriesPart]
    rw [h1]

/-- Witness for claim C6: the end before start request reqC6 is rejected with
a ValidationError after exactly the two seed queries, and the unsupported
interval request reqC6bad is rejected before any query. -/
theorem c6_validation_order_witness :
    (["days", "weeks", "months"].contains reqC6.interval) = true ∧
    ((3 : Time) < 5) ∧
    coursesTimeSeriesMetricsGet emptyDB reqC6 10 [] (mkRat 1 100) =
      (Except.error TSError.validationError, 2) ∧
    (["days", "weeks", "months"].contains reqC6bad.interval) = false ∧
    coursesTimeSeriesMetricsGet emptyDB reqC6bad 10 [] (mkRat 1 100) =
      (Except.error TSError.badInterval, 0) :=
  ⟨by with_unfolding_all rfl, by decide,
    (c6_validation_order emptyDB reqC6 10 [] (mkRat 1 100) 5 3
      (by with_unfolding_all rfl) (by with_unfolding_all rfl)).2
      (by with_unfolding_all rfl) (by decide),
    by with_unfolding_all rfl,
    (c6_validation_order emptyDB reqC6bad 10 [] (mkRat 1 100) 0 2
      (by with_unfolding_all rfl) (by with_unfolding_all rfl)).1
      (by with_unfolding_all rfl)⟩

/-- Claim C3 (counterexample): in dbC3 with group filter [5] the reported
course_count is 2 although the group filtered eligible set holds a single
record, because models.py computes the aggregates at line 84 and applies the
group filter only at line 101. -/
theorem c3_counterexample :
    (generate_leaderboard dbC3 0 10 none [5] 3 []).course_count = 2 ∧
    ((groupJoinRows dbC3 [5] (eligibleRows dbC3 10 [])).dedup).length = 1 ∧
    (generate_leaderboard dbC3 0 10 none [5] 3 []).course_count ≠
      ((groupJoinRows dbC3 [5] (eligibleRows dbC3 10 [])).dedup).length := by
  with_unfolding_all decide

/-- Claim C8: the score reconstruction is a three way dispatch on the detail
label: an equals sign sums the raw scores of the category of the section, a
hyphen parses the trailing parenthesised fragment, otherwise the preexisting
fields are kept with default 0; the grade description prints both values
with two decimal places when both convert in float() and interpolates them
verbatim otherwise. -/
theorem c8_section_scores (totaled_scores : List (String × List RawScore)) (sec : GSection) :
    (sec.detail.contains '=' = true →
      update_section_scores totaled_scores sec =
        (SVal.num (sumEarned (((totaled_scores.find? (fun p => p.1 == sec.category)).map
            (fun p => p.2)).getD [])),
         SVal.num (sumPossible (((totaled_scores.find? (fun p => p.1 == sec.category)).map
            (fun p => p.2)).getD [])))) ∧
    (sec.detail.contains '=' = false → sec.detail.contains '-' = true →
      update_section_scores totaled_scores sec =
        (SVal.str (earnedFromDetail sec.detail), SVal.str (possibleFromDetail sec.detail))) ∧
    (sec.detail.contains '=' = false → sec.detail.contains '-' = false →
      update_section_scores totaled_scores sec =
        (sec.score_earned.getD (SVal.num 0), sec.score_possible.getD (SVal.num 0))) ∧
    (∀ a b : Rat,
      pyFloat (update_section_scores totaled_scores sec).1 = some a →
      pyFloat (update_section_scores totaled_scores sec).2 = some b →
      grade_description (update_section_scores totaled_scores sec).1
          (update_section_scores totaled_scores sec).2 =
        "(" ++ format2 a ++ "/" ++ format2 b ++ ")") ∧
    ((pyFloat (update_section_scores totaled_scores sec).1 = none ∨
      pyFloat (update_section_scores totaled_scores sec).2 = none) →
      grade_description (update_section_scores totaled_scores sec).1
          (update_section_scores totaled_scores sec).2 =
        "(" ++ pyStr (update_section_scores totaled_scores sec).1 ++ "/" ++
          pyStr (update_section_scores totaled_scores sec).2 ++ ")") := by
  refine ⟨?_, ?_, ?_, ?_, ?_⟩
  · intro h
    simp [update_section_scores, h]
  · intro h1 h2
    simp [update_section_scores, h1, h2]
  · intro h1 h2
    simp [update_section_scores, h1, h2]
  · intro a b ha hb
    unfold grade_description
    rw [ha, hb]
  · intro h
    unfold grade_description
    rcases h with h | h
    · rw [h]
    · rw [h]
      cases pyFloat (update_section_scores totaled_scores sec).1 <;> rfl

/-- Witness for claim C8 at the two formatting examples of the spec: the
aggregate section with detail containing an equals sign sums the category to
3 out of 10 and prints (3.00/10.00); the hyphen section with a non numeric
fragment yields the question marks and the literal fallback (?/?). -/
theorem c8_section_scores_witness :
    secC8A.detail.contains '=' = true ∧
    update_section_scores totaledC8 secC8A = (SVal.num 3, SVal.num 10) ∧
    grade_description (SVal.num 3) (SVal.num 10) = "(3.00/10.00)" ∧
    secC8B.detail.contains '=' = false ∧
    secC8B.detail.contains '-' = true ∧
    update_section_scores [] secC8B = (SVal.str "?", SVal.str "?") ∧
    grade_description (SVal.str "?") (SVal.str "?") = "(?/?)" := by
  refine ⟨by with_unfolding_all rfl, ?_, by with_unfolding_all rfl,
    by with_unfolding_all rfl, by with_unfolding_all rfl, ?_,
    by with_unfolding_all rfl⟩
  · rw [(c8_section_scores totaledC8 secC8A).1 (by with_unfolding_all rfl)]
    with_unfolding_all rfl
  · rw [((c8_section_scores [] secC8B).2.1) (by with_unfolding_all rfl)
      (by with_unfolding_all rfl)]
    with_unfolding_all rfl

/-- Membership in a join that duplicates each row per witness: a row appears
exactly when it was present and has at least one witness. -/
theorem mem_joinDup {α β : Type} (l : List α) (f : α → List β) (a : α) :
    a ∈ l.flatMap (fun x => (f x).map (fun _ => x)) ↔ a ∈ l ∧ f a ≠ [] := by
  simp only [List.mem_flatMap, List.mem_map]
  constructor
  · rintro ⟨x, hx, b, hb, rfl⟩
    refine ⟨hx, fun h => ?_⟩
    rw [h] at hb
    exact List.not_mem_nil b hb
  · rintro ⟨ha, hf⟩
    match hfa : f a with
    | [] => exact absurd hfa hf
    | b :: bs =>
      exact ⟨a, ha, b, by rw [hfa]; exact List.mem_cons_self b bs, rfl⟩

/-- A filter keeps at most one element when the pairwise relation of the list
is incompatible with two elements passing it. -/
theorem filter_length_le_one {α : Type} {l : List α} {p : α → Bool} {R : α → α → Prop}
    (hw : l.Pairwise R) (h : ∀ a b, p a = true → p b = true → R a b → False) :
    (l.filter p).length ≤ 1 := by
  induction l with
  | nil => simp
  | cons x xs ih =>
    rw [List.pairwise_cons] at hw
    obtain ⟨hx, hxs⟩ := hw
    by_cases hp : p x = true
    · rw [List.filter_cons_of_pos hp]
      have hnil : xs.filter p = [] := by
        rw [List.filter_eq_nil_iff]
        intro a ha hpa
        exact h x a hp hpa (hx a ha)
      rw [hnil]
      simp
    · rw [List.filter_cons_of_neg hp]
      exact ih hxs

/-- A duplicating join whose witness lists hold at most one element is the
filter keeping the rows with a witness. -/
theorem joinDup_eq_filter {α β : Type} (l : List α) (f : α → List β)
    (h : ∀ a, (f a).length ≤ 1) :
    l.flatMap (fun x => (f x).map (fun _ => x)) = l.filter (fun x => !(f x).isEmpty) := by
  induction l with
  | nil => rfl
  | cons x xs ih =>
    rw [List.flatMap_cons, ih]
    cases hfx : f x with
    | nil => simp [hfx]
    | cons b bs =>
      have hbs : bs = [] := by
        have hx := h x
        rw [hfx] at hx
        cases bs with
        | nil => rfl
        | cons c cs => simp at hx
      subst hbs
      simp [hfx]

/-- Lists with the same members have deduplications of the same length. -/
theorem dedup_length_eq_of_mem_iff {α : Type} [DecidableEq α] {l1 l2 : List α}
    (h : ∀ a, a ∈ l1 ↔ a ∈ l2) : l1.dedup.length = l2.dedup.length := by
  rw [← List.card_toFinset, ← List.card_toFinset]
  congr 1
  ext a
  simp only [List.mem_toFinset]
  exact h a

/-- Filters of member equivalent lists are empty together. -/
theorem filter_isEmpty_congr {α : Type} {l1 l2 : List α}
    (h : ∀ a, a ∈ l1 ↔ a ∈ l2) (p : α → Bool) :
    (l1.filter p).isEmpty = (l2.filter p).isEmpty := by
  rw [Bool.eq_iff_iff, List.isEmpty_iff, List.isEmpty_iff,
    List.filter_eq_nil_iff, List.filter_eq_nil_iff]
  constructor
  · intro hall a ha hpa
    exact hall a ((h a).mpr ha) hpa
  · intro hall a ha hpa
    exact hall a ((h a).mp ha) hpa

/-- The any aggregate agrees on member equivalent lists. -/
theorem any_congr_mem {α : Type} {l1 l2 : List α}
    (h : ∀ a, a ∈ l1 ↔ a ∈ l2) (p : α → Bool) :
    l1.any p = l2.any p := by
  rw [Bool.eq_iff_iff, List.any_eq_true, List.any_eq_true]
  constructor
  · rintro ⟨x, hx, hp⟩
    exact ⟨x, (h x).mp hx, hp⟩
  · rintro ⟨x, hx, hp⟩
    exact ⟨x, (h x).mpr hx, hp⟩

/-- The running maximum fold stays among its inputs. -/
theorem foldl_max_mem (xs : List Rat) (x : Rat) :
    xs.foldl (fun a b => if a < b then b else a) x = x ∨
      xs.foldl (fun a b => if a < b then b else a) x ∈ xs := by
  induction xs generalizing x with
  | nil => exact Or.inl rfl
  | cons y ys ih =>
    rw [List.foldl_cons]
    rcases ih (if x < y then y else x) with h | h
    · rw [h]
      by_cases hxy : x < y
      · rw [if_pos hxy] at h ⊢
        exact Or.inr (List.mem_cons_self y ys)
      · rw [if_neg hxy] at h ⊢
        exact Or.inl rfl
    · exact Or.inr (List.mem_cons_of_mem y h)

/-- The running maximum fold bounds its seed and all inputs. -/
theorem foldl_max_le (xs : List Rat) (x : Rat) :
    x ≤ xs.foldl (fun a b => if a < b then b else a) x ∧
      ∀ g ∈ xs, g ≤ xs.foldl (fun a b => if a < b then b else a) x := by
  induction xs generalizing x with
  | nil => exact ⟨le_refl x, by simp⟩
  | cons y ys ih =>
    rw [List.foldl_cons]
    obtain ⟨h1, h2⟩ := ih (if x < y then y else x)
    have hx : x ≤ if x < y then y else x := by
      by_cases hxy : x < y
      · rw [if_pos hxy]; exact le_of_lt hxy
      · rw [if_neg hxy]
    have hy : y ≤ if x < y then y else x := by
      by_cases hxy : x < y
      · rw [if_pos hxy]
      · rw [if_neg hxy]; exact le_of_not_lt hxy
    refine ⟨le_trans hx h1, ?_⟩
    intro g hg
    rcases List.mem_cons.mp hg with rfl | hg
    · exact le_trans hy h1
    · exact h2 g hg

/-- The running minimum fold stays among its inputs. -/
theorem foldl_min_mem (xs : List Rat) (x : Rat) :
    xs.foldl (fun a b => if b < a then b else a) x = x ∨
      xs.foldl (fun a b => if b < a then b else a) x ∈ xs := by
  induction xs generalizing x with
  | nil => exact Or.inl rfl
  | cons y ys ih =>
    rw [List.foldl_cons]
    rcases ih (if y < x then y else x) with h | h
    · rw [h]
      by_cases hxy : y < x
      · rw [if_pos hxy] at h ⊢
        exact Or.inr (List.mem_cons_self y ys)
      · rw [if_neg hxy] at h ⊢
        exact Or.inl rfl
    · exact Or.inr (List.mem_cons_of_mem y h)

/-- The running minimum fold is below its seed and all inputs. -/
theorem foldl_min_le (xs : List Rat) (x : Rat) :
    xs.foldl (fun a b => if b < a then b else a) x ≤ x ∧
      ∀ g ∈ xs, xs.foldl (fun a b => if b < a then b else a) x ≤ g := by
  induction xs generalizing x with
  | nil => exact ⟨le_refl x, by simp⟩
  | cons y ys ih =>
    rw [List.foldl_cons]
    obtain ⟨h1, h2⟩ := ih (if y < x then y else x)
    have hx : (if y < x then y else x) ≤ x := by
      by_cases hxy : y < x
      · rw [if_pos hxy]; exact le_of_lt hxy
      · rw [if_neg hxy]
    have hy : (if y < x then y else x) ≤ y := by
      by_cases hxy : y < x
      · rw [if_pos hxy]
      · rw [if_neg hxy]; exact le_of_not_lt hxy
    refine ⟨le_trans h1 hx, ?_⟩
    intro g hg
    rcases List.mem_cons.mp hg with rfl | hg
    · exact le_trans h1 hy
    · exact h2 g hg

/-- The leaderboard maximum aggregate is attained by a member of a nonempty
grade list. -/
theorem listMaxD_mem (l : List Rat) (h : l ≠ []) : listMaxD l ∈ l := by
  cases l with
  | nil => exact absurd rfl h
  | cons x xs =>
    show xs.foldl (fun a b => if a < b then b else a) x ∈ x :: xs
    rcases foldl_max_mem xs x with h1 | h1
    · rw [h1]; exact List.mem_cons_self x xs
    · exact List.mem_cons_of_mem x h1

/-- The leaderboard maximum aggregate bounds every member. -/
theorem le_listMaxD (l : List Rat) (g : Rat) (hg : g ∈ l) : g ≤ listMaxD l := by
  cases l with
  | nil => exact absurd hg (List.not_mem_nil g)
  | cons x xs =>
    unfold listMaxD
    obtain ⟨h1, h2⟩ := foldl_max_le xs x
    rcases List.mem_cons.mp hg with rfl | hg2
    · exact h1
    · exact h2 g hg2

/-- The leaderboard minimum aggregate is attained by a member of a nonempty
grade list. -/
theorem listMinD_mem (l : List Rat) (h : l ≠ []) : listMinD l ∈ l := by
  cases l with
  | nil => exact absurd rfl h
  | cons x xs =>
    show xs.foldl (fun a b => if b < a then b else a) x ∈ x :: xs
    rcases foldl_min_mem xs x with h1 | h1
    · rw [h1]; exact List.mem_cons_self x xs
    · exact List.mem_cons_of_mem x h1

/-- The leaderboard minimum aggregate is below every member. -/
theorem listMinD_le (l : List Rat) (g : Rat) (hg : g ∈ l) : listMinD l ≤ g := by
  cases l with
  | nil => exact absurd hg (List.not_mem_nil g)
  | cons x xs =>
    unfold listMinD
    obtain ⟨h1, h2⟩ := foldl_min_le xs x
    rcases List.mem_cons.mp hg with rfl | hg2
    · exact h1
    · exact h2 g hg2

/-- Membership survives the ranking insertion. -/
theorem mem_insertRanked (r x : GradeRecord) (l : List GradeRecord) :
    x ∈ insertRanked r l ↔ x = r ∨ x ∈ l := by
  induction l with
  | nil => simp [insertRanked]
  | cons y ys ih =>
    unfold insertRanked
    by_cases h : rankLE r y = true
    · rw [if_pos h]
      simp [List.mem_cons]
    · rw [if_neg h]
      simp only [List.mem_cons, ih]
      tauto

/-- The ranking sort is a permutation in the membership sense. -/
theorem mem_sortRanked (x : GradeRecord) (l : List GradeRecord) :
    x ∈ sortRanked l ↔ x ∈ l := by
  induction l with
  | nil => simp [sortRanked]
  | cons y ys ih =>
    unfold sortRanked
    rw [mem_insertRanked]
    simp only [List.mem_cons, ih]

/-- Under uniqueness of active enrollments, the enrollment join of one user
and course produces at most one row. -/
theorem activeEnrollRows_length_le_one (db : DB) (course : Nat)
    (hwf : enrollUnique db) (uid : Nat) :
    (activeEnrollRows db uid course).length ≤ 1 := by
  unfold activeEnrollRows
  apply filter_length_le_one hwf
  intro a b ha hb hab
  simp only [Bool.and_eq_true, beq_iff_eq] at ha hb
  exact hab ⟨ha.1.1.trans hb.1.1.symm, ha.1.2.trans hb.1.2.symm, ha.2, hb.2⟩

/-- Membership in the joined base queryset coincides with record level
eligibility; no uniqueness assumption is needed for membership. -/
theorem mem_eligibleRows (db : DB) (course : Nat) (excl : List Nat) (r : GradeRecord) :
    r ∈ eligibleRows db course excl ↔
      r ∈ db.gradebook ∧ isEligibleRecord db course excl r = true := by
  unfold eligibleRows isEligibleRecord
  simp only [List.mem_filter, mem_joinDup, Bool.and_eq_true, Bool.not_eq_true',
    ← List.isEmpty_eq_false]
  tauto

/-- Under uniqueness of active enrollments, the joined base queryset is
exactly the list of eligible records. -/
theorem eligibleRows_eq_records (db : DB) (course : Nat) (excl : List Nat)
    (hwf : enrollUnique db) :
    eligibleRows db course excl = eligibleRecords db course excl := by
  unfold eligibleRows eligibleRecords
  rw [joinDup_eq_filter
    (db.gradebook.filter (fun r => r.course_id == course && userIsActive db r.user_id))
    (fun r => activeEnrollRows db r.user_id course)
    (fun r => activeEnrollRows_length_le_one db course hwf r.user_id)]
  rw [List.filter_filter, List.filter_filter]
  apply List.filter_congr
  intro r _
  unfold isEligibleRecord
  cases hb1 : (r.course_id == course) <;>
    cases hb2 : userIsActive db r.user_id <;>
      cases hb3 : (activeEnrollRows db r.user_id course).isEmpty <;>
        cases hb4 : excl.contains r.user_id <;> rfl

/-- An eligible record forces a positive enrolled user count after the
exclusions. -/
theorem totalEnrolled_ne_zero_of_mem (db : DB) (course : Nat) (excl : List Nat)
    (r : GradeRecord) (hel : isEligibleRecord db course excl r = true) :
    totalEnrolledCount db course excl ≠ 0 := by
  unfold isEligibleRecord at hel
  simp only [Bool.and_eq_true, beq_iff_eq, Bool.not_eq_true'] at hel
  obtain ⟨⟨⟨hc, ha⟩, hje⟩, hx⟩ := hel
  have hjoin : activeEnrollRows db r.user_id course ≠ [] := by
    intro h0
    rw [h0] at hje
    simp at hje
  obtain ⟨e, he⟩ := List.exists_mem_of_ne_nil _ hjoin
  unfold activeEnrollRows at he
  rw [List.mem_filter] at he
  obtain ⟨heM, hep⟩ := he
  simp only [Bool.and_eq_true, beq_iff_eq] at hep
  unfold totalEnrolledCount
  intro hlen
  rw [List.length_eq_zero, List.filter_eq_nil_iff] at hlen
  refine hlen r.user_id ?_ ?_
  · unfold users_enrolled_in
    rw [List.mem_dedup, List.mem_map]
    refine ⟨e, ?_, hep.1.1⟩
    rw [List.mem_filter]
    refine ⟨heM, ?_⟩
    rw [Bool.and_eq_true, beq_iff_eq]
    exact ⟨hep.1.2, hep.2⟩
  · rw [Bool.not_eq_true', hx]

/-- Claim C4: whenever at least one eligible record exists (and active
enrollments are unique per user and course), the reported course average is
the average grade over the recorded eligible users, multiplied by the
recorded count, divided by the enrolled count minus exclusions, rounded to
three decimal places. -/
theorem c4_course_avg (db : DB) (now : Time) (course_key : Nat) (user_id : Option Nat)
    (group_ids : List Nat) (count : Nat) (exclude_users : List Nat)
    (hwf : enrollUnique db)
    (hne : eligibleRecords db course_key exclude_users ≠ []) :
    (generate_leaderboard db now course_key user_id group_ids count
        exclude_users).course_avg =
      pyRound3 ((((eligibleRecords db course_key exclude_users).map
          (fun r => r.grade)).sum /
            ((eligibleRecords db course_key exclude_users).length : Rat)) *
          ((eligibleRecords db course_key exclude_users).length : Rat) /
          (totalEnrolledCount db course_key exclude_users : Rat)) := by
  obtain ⟨r, hr⟩ := List.exists_mem_of_ne_nil _ hne
  have hel : isEligibleRecord db course_key exclude_users r = true := by
    unfold eligibleRecords at hr
    exact (List.mem_filter.mp hr).2
  have htot := totalEnrolled_ne_zero_of_mem db course_key exclude_users r hel
  have hrows := eligibleRows_eq_records db course_key exclude_users hwf
  have hcnt : (eligibleRows db course_key exclude_users).length ≠ 0 := by
    rw [hrows]
    intro h0
    exact hne (List.length_eq_zero.mp h0)
  unfold generate_leaderboard
  rw [if_neg htot, if_neg hcnt]
  cases user_id with
  | none =>
    show pyRound3 ((((eligibleRows db course_key exclude_users).map
        (fun r => r.grade)).sum /
          ((eligibleRows db course_key exclude_users).length : Rat)) /
        (totalEnrolledCount db course_key exclude_users : Rat) *
        ((eligibleRows db course_key exclude_users).length : Rat)) = _
    rw [hrows]
    congr 1
    ring
  | some uid =>
    show pyRound3 ((((eligibleRows db course_key exclude_users).map
        (fun r => r.grade)).sum /
          ((eligibleRows db course_key exclude_users).length : Rat)) /
        (totalEnrolledCount db course_key exclude_users : Rat) *
        ((eligibleRows db course_key exclude_users).length : Rat)) = _
    rw [hrows]
    congr 1
    ring

/-- Witness for claim C4 at the averaging example of the spec: five enrolled
users, recorded grades 9/10, 4/5 and 4/5, reported course average 1/2, that
is 0.500 at three decimal places. -/
theorem c4_course_avg_witness :
    enrollUnique dbC4 ∧
    eligibleRecords dbC4 20 [] ≠ [] ∧
    totalEnrolledCount dbC4 20 [] = 5 ∧
    (eligibleRecords dbC4 20 []).map (fun r => r.grade) =
      [mkRat 9 10, mkRat 4 5, mkRat 4 5] ∧
    (generate_leaderboard dbC4 0 20 none [] 3 []).course_avg = mkRat 1 2 ∧
    (generate_leaderboard dbC4 0 20 none [] 3 []).course_avg =
      pyRound3 ((((eligibleRecords dbC4 20 []).map (fun r => r.grade)).sum /
          ((eligibleRecords dbC4 20 []).length : Rat)) *
        ((eligibleRecords dbC4 20 []).length : Rat) /
        (totalEnrolledCount dbC4 20 [] : Rat)) :=
  ⟨by unfold enrollUnique; with_unfolding_all decide, by with_unfolding_all decide,
    by with_unfolding_all decide, by with_unfolding_all decide,
    by with_unfolding_all decide,
    c4_course_avg dbC4 0 20 none [] 3 []
      (by unfold enrollUnique; with_unfolding_all decide)
      (by with_unfolding_all decide)⟩

/-- Claim C3 (amended): when a group filter is supplied (and the eligible
population is not empty), the aggregates recordedCount, rawAvg (and hence
courseAvg), max and min are computed over the eligible population WITHOUT
the group restriction, while the ranked rows are drawn from the group
filtered, deduplicated set. The courseAvg conjunct states the reported
average as the raw average over the unrestricted eligible rows scaled by
recordedCount over totalEnrolled, in the order the source computes it,
rounded to three decimal places. -/
theorem c3_amended (db : DB) (now : Time) (course_key : Nat) (user_id : Option Nat)
    (group_ids : List Nat) (count : Nat) (exclude_users : List Nat)
    (hne : eligibleRows db course_key exclude_users ≠ [])
    (hg : group_ids ≠ []) :
    (generate_leaderboard db now course_key user_id group_ids count
        exclude_users).course_count = (eligibleRows db course_key exclude_users).length ∧
    (generate_leaderboard db now course_key user_id group_ids count
        exclude_users).course_avg =
      pyRound3 ((((eligibleRows db course_key exclude_users).map
          (fun r => r.grade)).sum /
            ((eligibleRows db course_key exclude_users).length : Rat)) /
          (totalEnrolledCount db course_key exclude_users : Rat) *
          ((eligibleRows db course_key exclude_users).length : Rat)) ∧
    (generate_leaderboard db now course_key user_id group_ids count
        exclude_users).course_max ∈
      (eligibleRows db course_key exclude_users).map (fun r => r.grade) ∧
    (∀ g ∈ (eligibleRows db course_key exclude_users).map (fun r => r.grade),
      g ≤ (generate_leaderboard db now course_key user_id group_ids count
        exclude_users).course_max) ∧
    (generate_leaderboard db now course_key user_id group_ids count
        exclude_users).course_min ∈
      (eligibleRows db course_key exclude_users).map (fun r => r.grade) ∧
    (∀ g ∈ (eligibleRows db course_key exclude_users).map (fun r => r.grade),
      (generate_leaderboard db now course_key user_id group_ids count
        exclude_users).course_min ≤ g) ∧
    (∀ row ∈ (generate_leaderboard db now course_key user_id group_ids count
        exclude_users).queryset,
      ∃ r, r ∈ (groupJoinRows db group_ids
          (eligibleRows db course_key exclude_users)).dedup ∧
        row = LeaderboardRow.mk r.user_id (usernameOf db r.user_id) r.grade r.modified) := by
  obtain ⟨r0, hr0⟩ := List.exists_mem_of_ne_nil _ hne
  have hel := (mem_eligibleRows db course_key exclude_users r0).mp hr0
  have htot := totalEnrolled_ne_zero_of_mem db course_key exclude_users r0 hel.2
  have hcnt : (eligibleRows db course_key exclude_users).length ≠ 0 := fun h0 =>
    hne (List.length_eq_zero.mp h0)
  have hgb : ¬(group_ids.isEmpty = true) := by
    rw [List.isEmpty_iff]
    exact hg
  have hmapne : (eligibleRows db course_key exclude_users).map (fun r => r.grade) ≠ [] := by
    intro h0
    exact hne (List.map_eq_nil_iff.mp h0)
  unfold generate_leaderboard
  rw [if_neg htot, if_neg hcnt, if_neg hgb]
  cases user_id with
  | none =>
    refine ⟨rfl, rfl, ?_, ?_, ?_, ?_, ?_⟩
    · exact listMaxD_mem _ hmapne
    · intro g hg2
      exact le_listMaxD _ g hg2
    · exact listMinD_mem _ hmapne
    · intro g hg2
      exact listMinD_le _ g hg2
    · intro row hrow
      obtain ⟨r, hr1, rfl⟩ := List.mem_map.mp hrow
      exact ⟨r, (mem_sortRanked r _).mp (List.mem_of_mem_take hr1), rfl⟩
  | some uid =>
    refine ⟨rfl, rfl, ?_, ?_, ?_, ?_, ?_⟩
    · exact listMaxD_mem _ hmapne
    · intro g hg2
      exact le_listMaxD _ g hg2
    · exact listMinD_mem _ hmapne
    · intro g hg2
      exact listMinD_le _ g hg2
    · intro row hrow
      obtain ⟨r, hr1, rfl⟩ := List.mem_map.mp hrow
      exact ⟨r, (mem_sortRanked r _).mp (List.mem_of_mem_take hr1), rfl⟩

/-- Witness for claim C3 at the store dbC3 with group filter [5]: the
aggregate count and average cover the whole eligible population of two
records while the rows come from the group filtered set. -/
theorem c3_amended_witness :
    eligibleRows dbC3 10 [] ≠ [] ∧ (([5] : List Nat) ≠ []) ∧
    (generate_leaderboard dbC3 0 10 none [5] 3 []).course_count =
      (eligibleRows dbC3 10 []).length ∧
    (generate_leaderboard dbC3 0 10 none [5] 3 []).course_avg =
      pyRound3 ((((eligibleRows dbC3 10 []).map (fun r => r.grade)).sum /
          ((eligibleRows dbC3 10 []).length : Rat)) /
        (totalEnrolledCount dbC3 10 [] : Rat) *
        ((eligibleRows dbC3 10 []).length : Rat)) ∧
    (generate_leaderboard dbC3 0 10 none [5] 3 []).course_max ∈
      (eligibleRows dbC3 10 []).map (fun r => r.grade) :=
  ⟨by with_unfolding_all decide, by decide,
    (c3_amended dbC3 0 10 none [5] 3 [] (by with_unfolding_all decide) (by decide)).1,
    (c3_amended dbC3 0 10 none [5] 3 [] (by with_unfolding_all decide) (by decide)).2.1,
    (c3_amended dbC3 0 10 none [5] 3 [] (by with_unfolding_all decide) (by decide)).2.2.1⟩

/-- A filter is nonempty exactly when the any aggregate is true. -/
theorem filter_ne_nil_iff_any {α : Type} (l : List α) (p : α → Bool) :
    l.filter p ≠ [] ↔ l.any p = true := by
  rw [Ne, List.filter_eq_nil_iff, ← List.any_eq_false]
  cases l.any p <;> simp

/-- Membership in the joined completion queryset coincides with the record
level completion predicate; no uniqueness assumption is needed. -/
theorem mem_completedQueryset (db : DB) (course_key : Nat) (exclude_users : List Nat)
    (org_ids group_ids : List Nat) (eps : Rat) (r : GradeRecord) :
    r ∈ completedQueryset db course_key exclude_users org_ids group_ids eps ↔
      r ∈ db.gradebook ∧
        qualifiesCompleted db course_key exclude_users org_ids group_ids eps r = true := by
  unfold completedQueryset qualifiesCompleted isEligibleRecord
  cases ho : org_ids.isEmpty <;> cases hgr : group_ids.isEmpty <;>
    simp [ho, hgr, List.mem_filter, mem_joinDup, filter_ne_nil_iff_any,
      List.isEmpty_eq_false, Bool.and_eq_true, Bool.not_eq_true'] <;> tauto

/-- The distinct count of the completion queryset equals the distinct count
of the records satisfying the completion predicate. -/
theorem getNum_eq_dedup_filter (db : DB) (course_key : Nat) (exclude_users : List Nat)
    (org_ids group_ids : List Nat) (eps : Rat) :
    get_num_users_completed db course_key exclude_users org_ids group_ids eps =
      ((db.gradebook.filter (qualifiesCompleted db course_key exclude_users org_ids
          group_ids eps)).dedup).length := by
  unfold get_num_users_completed
  apply dedup_length_eq_of_mem_iff
  intro a
  rw [mem_completedQueryset, List.mem_filter]

/-- The uniqueness constraint makes the gradebook free of duplicates. -/
theorem gradebook_nodup_of_unique (db : DB) (hwf : gradebookUnique db) :
    db.gradebook.Nodup := by
  unfold gradebookUnique at hwf
  exact hwf.imp (fun h heq => h (by rw [heq]; exact ⟨rfl, rfl⟩))

/-- Under the uniqueness constraint, the completion count is the number of
distinct users owning a record that satisfies the completion predicate. -/
theorem getNum_eq_user_count (db : DB) (course_key : Nat) (exclude_users : List Nat)
    (org_ids group_ids : List Nat) (eps : Rat) (hwf : gradebookUnique db) :
    get_num_users_completed db course_key exclude_users org_ids group_ids eps =
      ((db.gradebook.filter (qualifiesCompleted db course_key exclude_users org_ids
          group_ids eps)).map (fun r => r.user_id)).dedup.length := by
  have hnodup : (db.gradebook.filter (qualifiesCompleted db course_key exclude_users
      org_ids group_ids eps)).Nodup :=
    (gradebook_nodup_of_unique db hwf).filter _
  have hpair : (db.gradebook.filter (qualifiesCompleted db course_key exclude_users
      org_ids group_ids eps)).Pairwise
      (fun a b => ¬(a.user_id = b.user_id ∧ a.course_id = b.course_id)) := by
    unfold gradebookUnique at hwf
    exact hwf.sublist (List.filter_sublist _)
  have husers : ((db.gradebook.filter (qualifiesCompleted db course_key exclude_users
      org_ids group_ids eps)).map (fun r => r.user_id)).Nodup := by
    apply List.Nodup.map_on ?_ hnodup
    intro x hx y hy hxy
    by_contra hne
    have hcx : x.course_id = course_key := by
      have := (List.mem_filter.mp hx).2
      unfold qualifiesCompleted isEligibleRecord at this
      simp only [Bool.and_eq_true, beq_iff_eq] at this
      exact this.1.1.1.1.1.1.1
    have hcy : y.course_id = course_key := by
      have := (List.mem_filter.mp hy).2
      unfold qualifiesCompleted isEligibleRecord at this
      simp only [Bool.and_eq_true, beq_iff_eq] at this
      exact this.1.1.1.1.1.1.1
    have hsym : Symmetric (fun a b : GradeRecord =>
        ¬(a.user_id = b.user_id ∧ a.course_id = b.course_id)) := by
      intro a b h hab
      exact h ⟨hab.1.symm, hab.2.symm⟩
    exact hpair.forall hsym hx hy hne ⟨hxy, hcx.trans hcy.symm⟩
  rw [getNum_eq_dedup_filter, hnodup.dedup, husers.dedup, List.length_map]

/-- Claim C9: with the default tolerance 1/100, get_num_users_completed
counts exactly the users owning an eligible record that passes the optional
organization and group filters and satisfies proforma_grade greater than 0
and proforma_grade at most grade plus the tolerance. -/
theorem c9_completion (db : DB) (course_key : Nat)
    (exclude_users org_ids group_ids : List Nat) (hwf : gradebookUnique db) :
    get_num_users_completed db course_key exclude_users org_ids group_ids (mkRat 1 100) =
      ((db.gradebook.filter (qualifiesCompleted db course_key exclude_users org_ids
          group_ids (mkRat 1 100))).map (fun r => r.user_id)).dedup.length :=
  getNum_eq_user_count db course_key exclude_users org_ids group_ids (mkRat 1 100) hwf

/-- Witness for claim C9 at the completion examples of the spec: with grade
3/4 a proforma grade of 0.755 counts, while 0 and 0.8 do not, so the count
over dbC9 is 1. -/
theorem c9_completion_witness :
    gradebookUnique dbC9 ∧
    get_num_users_completed dbC9 50 [] [] [] (mkRat 1 100) = 1 ∧
    qualifiesCompleted dbC9 50 [] [] [] (mkRat 1 100)
      ⟨1, 50, mkRat 3 4, mkRat 151 200, "", "", "", 0, 0⟩ = true ∧
    qualifiesCompleted dbC9 50 [] [] [] (mkRat 1 100)
      ⟨2, 50, mkRat 3 4, 0, "", "", "", 0, 0⟩ = false ∧
    qualifiesCompleted dbC9 50 [] [] [] (mkRat 1 100)
      ⟨3, 50, mkRat 3 4, mkRat 4 5, "", "", "", 0, 0⟩ = false ∧
    get_num_users_completed dbC9 50 [] [] [] (mkRat 1 100) =
      ((dbC9.gradebook.filter (qualifiesCompleted dbC9 50 [] [] []
          (mkRat 1 100))).map (fun r => r.user_id)).dedup.length :=
  ⟨by unfold gradebookUnique; with_unfolding_all decide,
    by with_unfolding_all decide, by with_unfolding_all decide,
    by with_unfolding_all decide, by with_unfolding_all decide,
    c9_completion dbC9 50 [] [] [] (by unfold gradebookUnique; with_unfolding_all decide)⟩

/-- Claim C10: the completion count is invariant under duplicating the join
tables (organizations, groups, enrollments with the same membership), and
under the uniqueness constraint it equals the number of distinct qualifying
users, so each qualifying user contributes exactly 1. -/
theorem c10_distinct_count (db db2 : DB) (course_key : Nat)
    (exclude_users org_ids group_ids : List Nat) (eps : Rat)
    (hwf : gradebookUnique db)
    (hU : db.users = db2.users)
    (hG : db.gradebook = db2.gradebook)
    (hE : ∀ e, e ∈ db.enrollments ↔ e ∈ db2.enrollments)
    (hO : ∀ p, p ∈ db.userOrgs ↔ p ∈ db2.userOrgs)
    (hGr : ∀ p, p ∈ db.userGroups ↔ p ∈ db2.userGroups) :
    get_num_users_completed db course_key exclude_users org_ids group_ids eps =
      get_num_users_completed db2 course_key exclude_users org_ids group_ids eps ∧
    get_num_users_completed db course_key exclude_users org_ids group_ids eps =
      ((db.gradebook.filter (qualifiesCompleted db course_key exclude_users org_ids
          group_ids eps)).map (fun r => r.user_id)).dedup.length := by
  have hq : ∀ r, qualifiesCompleted db course_key exclude_users org_ids group_ids eps r =
      qualifiesCompleted db2 course_key exclude_users org_ids group_ids eps r := by
    intro r
    unfold qualifiesCompleted isEligibleRecord userIsActive activeEnrollRows
    rw [hU]
    rw [filter_isEmpty_congr hE
      (fun e => e.user_id == r.user_id && e.course_id == course_key && e.is_active)]
    rw [any_congr_mem hO (fun p => p.1 == r.user_id && org_ids.contains p.2)]
    rw [any_congr_mem hGr (fun p => p.1 == r.user_id && group_ids.contains p.2)]
  constructor
  · rw [getNum_eq_dedup_filter, getNum_eq_dedup_filter, ← hG]
    rw [List.filter_congr (fun r _ => hq r)]
  · exact getNum_eq_user_count db course_key exclude_users org_ids group_ids eps hwf

/-- Witness for claim C10: duplicating the organization, group and
enrollment rows of the single completed user of dbC10a leaves the count at
1. -/
theorem c10_distinct_count_witness :
    gradebookUnique dbC10a ∧
    get_num_users_completed dbC10a 60 [] [7] [8] (mkRat 1 100) = 1 ∧
    get_num_users_completed dbC10b 60 [] [7] [8] (mkRat 1 100) = 1 ∧
    get_num_users_completed dbC10a 60 [] [7] [8] (mkRat 1 100) =
      get_num_users_completed dbC10b 60 [] [7] [8] (mkRat 1 100) :=
  ⟨by unfold gradebookUnique; with_unfolding_all decide,
    by with_unfolding_all decide, by with_unfolding_all decide,
    (c10_distinct_count dbC10a dbC10b 60 [] [7] [8] (mkRat 1 100)
      (by unfold gradebookUnique; with_unfolding_all decide)
      (by with_unfolding_all rfl) (by with_unfolding_all rfl)
      (by intro e; simp [dbC10a, dbC10b])
      (by intro p; simp [dbC10a, dbC10b])
      (by intro p; simp [dbC10a, dbC10b])).1⟩

/-- Length of one bucketed series: one entry per bucket. -/
theorem tsBucketSeries_length {α : Type} (rows : List α) (stamp : α → Time)
    (agg : List α → Nat) (start_dt : Time) (w n : Nat) :
    (tsBucketSeries rows stamp agg start_dt w n).length = n := by
  unfold tsBucketSeries
  rw [List.length_map, List.length_range]

/-- The derivation loop walks the zipped series, so its length is the
minimum of the two series lengths. -/
theorem notStartedLoop_length (es : List (Time × Nat)) (ss : List (Time × Nat))
    (tE tS : Nat) :
    (notStartedLoop tE tS es ss).length = min es.length ss.length := by
  induction es generalizing ss tE tS with
  | nil => simp [notStartedLoop]
  | cons e es ih =>
    cases ss with
    | nil => simp [notStartedLoop]
    | cons s ss =>
      simp [notStartedLoop, ih, Nat.succ_min_succ]

/-- Shifting a prefix sum of bucket counts across a cons cell. -/
theorem range_succ_map_getD_sum (l : List (Time × Nat)) (x : Time × Nat) (k : Nat) :
    ((List.range (k + 1 + 1)).map (fun i => (((x :: l).getD i (0, 0)).2 : Int))).sum =
      (x.2 : Int) + ((List.range (k + 1)).map (fun i => ((l.getD i (0, 0)).2 : Int))).sum := by
  rw [List.range_succ_eq_map, List.map_cons, List.sum_cons, List.map_map]
  rfl

/-- Value of the derivation loop at index k: the running totals incremented
through bucket k, subtracted, under the bucket timestamp of the started
series. -/
theorem notStartedLoop_getD (es : List (Time × Nat)) (ss : List (Time × Nat))
    (tE tS : Nat) (k : Nat) (hk : k < (notStartedLoop tE tS es ss).length) :
    (notStartedLoop tE tS es ss).getD k (0, 0) =
      ((ss.getD k (0, 0)).1,
        ((tE : Int) + ((List.range (k + 1)).map
            (fun i => ((es.getD i (0, 0)).2 : Int))).sum) -
          ((tS : Int) + ((List.range (k + 1)).map
            (fun i => ((ss.getD i (0, 0)).2 : Int))).sum)) := by
  induction es generalizing ss tE tS k with
  | nil => simp [notStartedLoop] at hk
  | cons e es ih =>
    cases ss with
    | nil => simp [notStartedLoop] at hk
    | cons s ss =>
      have hstep : notStartedLoop tE tS (e :: es) (s :: ss) =
          (s.1, ((tE : Int) + (e.2 : Int)) - ((tS : Int) + (s.2 : Int))) ::
            notStartedLoop (tE + e.2) (tS + s.2) es ss := rfl
      cases k with
      | zero =>
        rw [hstep, List.getD_cons_zero, List.getD_cons_zero, Prod.mk.injEq]
        refine ⟨rfl, ?_⟩
        have h1 : ((List.range (0 + 1)).map
            (fun i => (((e :: es).getD i (0, 0)).2 : Int))).sum = (e.2 : Int) := by
          simp [List.range_succ]
        have h2 : ((List.range (0 + 1)).map
            (fun i => (((s :: ss).getD i (0, 0)).2 : Int))).sum = (s.2 : Int) := by
          simp [List.range_succ]
        rw [h1, h2]
      | succ k =>
        have hk2 : k < (notStartedLoop (tE + e.2) (tS + s.2) es ss).length := by
          rw [hstep] at hk
          simp only [List.length_cons] at hk
          omega
        rw [hstep, List.getD_cons_succ, ih ss (tE + e.2) (tS + s.2) k hk2]
        rw [List.getD_cons_succ]
        rw [range_succ_map_getD_sum es e k, range_succ_map_getD_sum ss s k]
        rw [Prod.mk.injEq]
        refine ⟨rfl, ?_⟩
        push_cast
        ring

/-- On a well ordered time range every series call succeeds, and the series
part returns the six series with the derivation loop output, after seven
queries. -/
theorem tsSeriesPart_ok (db : DB) (req : TSRequest) (course_key : Nat)
    (exclude_users : List Nat) (eps : Rat) (sdt edt : Time) (hse : sdt ≤ edt) :
    tsSeriesPart db req course_key exclude_users eps sdt edt =
      (Except.ok
        ⟨notStartedLoop
            (ts_total_enrolled_seed db course_key exclude_users req.organization
              req.groups sdt)
            (ts_total_started_seed db course_key exclude_users req.organization
              req.groups sdt)
            (tsBucketSeries (ts_enrolled_qs db course_key exclude_users req.organization
                req.groups) (fun e => e.created) (fun l => l.length) sdt
              (intervalWidth req.interval) (numBuckets sdt edt (intervalWidth req.interval)))
            (tsBucketSeries (ts_started_qs db course_key exclude_users req.organization
                req.groups) (fun p => p.created)
              (fun l => ((l.map (fun p => p.user_id)).dedup).length) sdt
              (intervalWidth req.interval) (numBuckets sdt edt (intervalWidth req.interval))),
          tsBucketSeries (ts_started_qs db course_key exclude_users req.organization
              req.groups) (fun p => p.created)
            (fun l => ((l.map (fun p => p.user_id)).dedup).length) sdt
            (intervalWidth req.interval) (numBuckets sdt edt (intervalWidth req.interval)),
          tsBucketSeries (ts_completed_qs db course_key exclude_users req.organization
              req.groups eps) (fun r => r.modified) (fun l => l.dedup.length) sdt
            (intervalWidth req.interval) (numBuckets sdt edt (intervalWidth req.interval)),
          tsBucketSeries (ts_modules_qs db course_key exclude_users req.organization
              req.groups) (fun m => m.created) (fun l => l.dedup.length) sdt
            (intervalWidth req.interval) (numBuckets sdt edt (intervalWidth req.interval)),
          tsBucketSeries (ts_enrolled_qs db course_key exclude_users req.organization
              req.groups) (fun e => e.created) (fun l => l.length) sdt
            (intervalWidth req.interval) (numBuckets sdt edt (intervalWidth req.interval)),
          tsBucketSeries (ts_active_qs db course_key exclude_users req.organization
              req.groups) (fun m => m.modified)
            (fun l => ((l.map (fun m => m.student_id)).dedup).length) (sdt - 1)
            (intervalWidth req.interval)
            (numBuckets (sdt - 1) (edt - 1) (intervalWidth req.interval))⟩, 7) := by
  have h0 : ¬(edt < sdt) := not_lt.mpr hse
  have h0s : ¬(edt - 1 < sdt - 1) := fun hcon => h0 (by linarith)
  simp only [tsSeriesPart]
  unfold get_time_series_data
  rw [if_neg h0, if_neg h0, if_neg h0, if_neg h0, if_neg h0s]

/-- Claim C7: for a well formed request the notStarted series is derived
from the other two series rather than queried: the running totals are seeded
with the counts of enrollment and start events strictly before the start of
the range, and the entry at each bucket is the difference of the running
totals after adding that bucket, under the bucket timestamp of the started
series; the series cover one entry per bucket. -/
theorem c7_not_started (db : DB) (req : TSRequest) (course_key : Nat)
    (exclude_users : List Nat) (eps : Rat) (sdt edt : Time)
    (hs : req.start_date = some sdt) (he : req.end_date = some edt)
    (hint : (["days", "weeks", "months"].contains req.interval) = true)
    (hse : sdt ≤ edt) :
    ∀ d : TSData,
      (coursesTimeSeriesMetricsGet db req course_key exclude_users eps).1 =
        Except.ok d →
      d.users_enrolled.length = numBuckets sdt edt (intervalWidth req.interval) ∧
      d.users_started.length = numBuckets sdt edt (intervalWidth req.interval) ∧
      d.users_not_started.length = numBuckets sdt edt (intervalWidth req.interval) ∧
      ∀ k, k < d.users_not_started.length →
        d.users_not_started.getD k (0, 0) =
          ((d.users_started.getD k (0, 0)).1,
            ((ts_total_enrolled_seed db course_key exclude_users req.organization
                req.groups sdt : Int) +
              ((List.range (k + 1)).map
                (fun i => ((d.users_enrolled.getD i (0, 0)).2 : Int))).sum) -
            ((ts_total_started_seed db course_key exclude_users req.organization
                req.groups sdt : Int) +
              ((List.range (k + 1)).map
                (fun i => ((d.users_started.getD i (0, 0)).2 : Int))).sum)) := by
  intro d hd
  have hok := tsSeriesPart_ok db req course_key exclude_users eps sdt edt hse
  have hview : (coursesTimeSeriesMetricsGet db req course_key exclude_users eps).1 =
      (tsSeriesPart db req course_key exclude_users eps sdt edt).1 := by
    unfold coursesTimeSeriesMetricsGet
    rw [hs, he, hint]
    show (if (!true) = true then
        ((Except.error TSError.badInterval, 0) : Except TSError TSData × Nat)
      else tsSeriesPart db req course_key exclude_users eps sdt edt).1 =
      (tsSeriesPart db req course_key exclude_users eps sdt edt).1
    rw [if_neg (by simp)]
  rw [hview, hok] at hd
  have hd2 : d = _ := (Except.ok.injEq _ _).mp hd.symm
  subst hd2
  refine ⟨?_, ?_, ?_, ?_⟩
  · exact tsBucketSeries_length
      (ts_enrolled_qs db course_key exclude_users req.organization req.groups)
      (fun e => e.created) (fun l => l.length) sdt (intervalWidth req.interval)
      (numBuckets sdt edt (intervalWidth req.interval))
  · exact tsBucketSeries_length
      (ts_started_qs db course_key exclude_users req.organization req.groups)
      (fun p => p.created) (fun l => ((l.map (fun p => p.user_id)).dedup).length)
      sdt (intervalWidth req.interval) (numBuckets sdt edt (intervalWidth req.interval))
  · show (notStartedLoop
        (ts_total_enrolled_seed db course_key exclude_users req.organization
          req.groups sdt)
        (ts_total_started_seed db course_key exclude_users req.organization
          req.groups sdt)
        (tsBucketSeries (ts_enrolled_qs db course_key exclude_users req.organization
            req.groups) (fun e => e.created) (fun l => l.length) sdt
          (intervalWidth req.interval) (numBuckets sdt edt (intervalWidth req.interval)))
        (tsBucketSeries (ts_started_qs db course_key exclude_users req.organization
            req.groups) (fun p => p.created)
          (fun l => ((l.map (fun p => p.user_id)).dedup).length) sdt
          (intervalWidth req.interval)
          (numBuckets sdt edt (intervalWidth req.interval)))).length =
      numBuckets sdt edt (intervalWidth req.interval)
    rw [notStartedLoop_length, tsBucketSeries_length, tsBucketSeries_length,
      Nat.min_self]
  · intro k hk
    exact notStartedLoop_getD
      (tsBucketSeries (ts_enrolled_qs db course_key exclude_users req.organization
          req.groups) (fun e => e.created) (fun l => l.length) sdt
        (intervalWidth req.interval) (numBuckets sdt edt (intervalWidth req.interval)))
      (tsBucketSeries (ts_started_qs db course_key exclude_users req.organization
          req.groups) (fun p => p.created)
        (fun l => ((l.map (fun p => p.user_id)).dedup).length) sdt
        (intervalWidth req.interval) (numBuckets sdt edt (intervalWidth req.interval)))
      (ts_total_enrolled_seed db course_key exclude_users req.organization
        req.groups sdt)
      (ts_total_started_seed db course_key exclude_users req.organization
        req.groups sdt)
      k hk

/-- Witness for claim C7 at the two day request of the spec example: two
buckets, an enrollment event before the start seeding the enrolled total at
1, no start events, and a notStarted value of 1 at both buckets. -/
theorem c7_not_started_witness :
    (coursesTimeSeriesMetricsGet dbC7 reqC7 40 [] (mkRat 1 100)).1 =
      Except.ok (⟨[(0, 1), (1, 1)], [(0, 0), (1, 0)], [(0, 0), (1, 0)],
        [(0, 0), (1, 0)], [(0, 0), (1, 0)], [(-1, 0), (0, 0)]⟩ : TSData) ∧
    ts_total_enrolled_seed dbC7 40 [] reqC7.organization reqC7.groups 0 = 1 ∧
    ts_total_started_seed dbC7 40 [] reqC7.organization reqC7.groups 0 = 0 ∧
    (([(0, 1), (1, 1)] : List (Time × Int)).length =
      numBuckets 0 2 (intervalWidth reqC7.interval) ∧
    ∀ k, k < ([(0, 1), (1, 1)] : List (Time × Int)).length →
      ([(0, 1), (1, 1)] : List (Time × Int)).getD k (0, 0) =
        ((([(0, 0), (1, 0)] : List (Time × Nat)).getD k (0, 0)).1,
          ((ts_total_enrolled_seed dbC7 40 [] reqC7.organization reqC7.groups 0 : Int) +
            ((List.range (k + 1)).map
              (fun i => ((([(0, 0), (1, 0)] : List (Time × Nat)).getD i (0, 0)).2 : Int))).sum) -
          ((ts_total_started_seed dbC7 40 [] reqC7.organization reqC7.groups 0 : Int) +
            ((List.range (k + 1)).map
              (fun i => ((([(0, 0), (1, 0)] : List (Time × Nat)).getD i (0, 0)).2 : Int))).sum))) := by
  have h1 : (coursesTimeSeriesMetricsGet dbC7 reqC7 40 [] (mkRat 1 100)).1 =
      Except.ok (⟨[(0, 1), (1, 1)], [(0, 0), (1, 0)], [(0, 0), (1, 0)],
        [(0, 0), (1, 0)], [(0, 0), (1, 0)], [(-1, 0), (0, 0)]⟩ : TSData) := by
    with_unfolding_all rfl
  have h2 := c7_not_started dbC7 reqC7 40 [] (mkRat 1 100) 0 2
    (by with_unfolding_all rfl) (by with_unfolding_all rfl)
    (by with_unfolding_all rfl) (by decide) _ h1
  exact ⟨h1, by with_unfolding_all rfl, by with_unfolding_all rfl, h2.2.2.1, h2.2.2.2⟩
